import Mathlib

/-!
Verification development for the Task Manager MCP server
(`mcp-server/server.py`).  The store is the pair of module-level globals
`tasks : dict[int, Task]` and `next_id : int`; persistence is
`load_tasks` / `save_tasks`; the dispatcher is the `call_tool` handler.

Modelling conventions:
* A Python `dict` is an insertion-ordered association list with distinct
  keys; assignment to an existing key keeps its position, assignment to a
  fresh key appends, `pop` removes the entry.
* The backing file `tasks.json` is modelled by its parsed JSON value
  (`Json` below, with integer numerals — floats are out of scope); an
  absent file is `none`.  Content that is not valid JSON text makes
  `json.load` raise, which is below this model (the model starts at the
  parsed value).
* Exceptions escaping a handler are modelled by `Except.error`; because
  Python mutations performed before the raise survive it, every handler
  returns the result *and* the store it leaves behind.
-/

set_option maxRecDepth 4000

namespace TaskServer

/-- Parsed JSON values, with integer numerals.  `obj` entries model a
Python dict produced by `json.load`, so keys are distinct and order is
preserved. -/
inductive Json where
  | null : Json
  | bool (b : Bool) : Json
  | num (n : Int) : Json
  | str (s : String) : Json
  | arr (elems : List Json) : Json
  | obj (entries : List (String × Json)) : Json

/-- Python `TaskStatus = Literal["todo", "in_progress", "done"]` —
the check pydantic performs when constructing a `Task`. -/
def isValidStatus (s : String) : Bool :=
  s == "todo" || s == "in_progress" || s == "done"

/-- The pydantic `Task` model (server.py lines 21-25).  `status` is a
plain string here because pydantic does not re-validate on field
assignment (`validate_assignment` is off), so `task.status = new_status`
in `move_task` can store any string. -/
structure Task where
  id : Int
  title : String
  description : String := ""
  status : String := "todo"
deriving Repr, DecidableEq

/-- The module-level globals: `tasks : dict[int, Task]` and
`next_id : int` (server.py lines 28-29). -/
structure Store where
  tasks : List (Int × Task) := []
  next_id : Int := 1
deriving Repr, DecidableEq

/-- The initial state of the globals: `tasks = {}`, `next_id = 1`. -/
def store0 : Store := ⟨[], 1⟩

/-- Python dict lookup `d[k]` / `k in d` on the integer-keyed task dict. -/
def alookup : List (Int × Task) → Int → Option Task
  | [], _ => none
  | (k, v) :: rest, i => if k = i then some v else alookup rest i

/-- Python dict assignment `d[k] = v`: replaces in place if the key is
present (keeping its position), otherwise appends. -/
def insertPy : List (Int × Task) → Int → Task → List (Int × Task)
  | [], i, t => [(i, t)]
  | (k, v) :: rest, i, t =>
    if k = i then (i, t) :: rest else (k, v) :: insertPy rest i t

/-- Python dict removal `d.pop(k)` (store side only). -/
def removePy : List (Int × Task) → Int → List (Int × Task)
  | [], _ => []
  | (k, v) :: rest, i => if k = i then rest else (k, v) :: removePy rest i

/-- The decimal digit characters, as Python `str(int)` emits them. -/
def digitChar (d : Nat) : Char :=
  if d = 0 then '0' else if d = 1 then '1' else if d = 2 then '2'
  else if d = 3 then '3' else if d = 4 then '4' else if d = 5 then '5'
  else if d = 6 then '6' else if d = 7 then '7' else if d = 8 then '8'
  else '9'

/-- Value of a decimal digit character, `none` on a non-digit. -/
def digitVal? (c : Char) : Option Nat :=
  if c = '0' then some 0 else if c = '1' then some 1 else if c = '2' then some 2
  else if c = '3' then some 3 else if c = '4' then some 4 else if c = '5' then some 5
  else if c = '6' then some 6 else if c = '7' then some 7 else if c = '8' then some 8
  else if c = '9' then some 9 else none

/-- Decimal digits, most significant first, by fuel-bounded recursion on
`n / 10` (any fuel above the digit count gives the same result). -/
def natToDigitsAux : Nat → Nat → List Char
  | 0, _ => []
  | fuel + 1, n =>
    if n < 10 then [digitChar n]
    else natToDigitsAux fuel (n / 10) ++ [digitChar (n % 10)]

/-- Decimal digits of a natural number, most significant first
(the digits Python `str` produces). -/
def natToDigits (n : Nat) : List Char := natToDigitsAux (n + 1) n

/-- Left-to-right accumulation of decimal digits; `none` on the first
non-digit character. -/
def parseNatAux : List Char → Nat → Option Nat
  | [], acc => some acc
  | c :: rest, acc =>
    match digitVal? c with
    | none => none
    | some d => parseNatAux rest (10 * acc + d)

/-- Python `str(k)` for an integer dict key (used by `save_tasks`). -/
def pyStrOfInt (i : Int) : String :=
  if i < 0 then ⟨'-' :: natToDigits i.natAbs⟩ else ⟨natToDigits i.natAbs⟩

/-- Python `int(k)` on a string key (used by `load_tasks`); `none` models
the `ValueError` raised on a non-numeral.  (Python also tolerates
surrounding whitespace, a leading plus and digit-group underscores;
those spellings never occur in files `save_tasks` writes and no theorem
below touches them.) -/
def pyIntOfStr (s : String) : Option Int :=
  if s.data = [] then none
  else if s.data.headD ' ' = '-' then
    if s.data.tail = [] then none
    else (parseNatAux s.data.tail 0).map (fun n => -(n : Int))
  else (parseNatAux s.data 0).map (fun n => (n : Int))

/-- Python `dict.get` on a parsed JSON object's entry list. -/
def lookupEntry : List (String × Json) → String → Option Json
  | [], _ => none
  | (k, v) :: rest, key => if k = key then some v else lookupEntry rest key

/-- `v.model_dump()` for a task, as `save_tasks` serializes it
(fields in declaration order). -/
def Task.toJson (t : Task) : Json :=
  .obj [("id", .num t.id), ("title", .str t.title),
        ("description", .str t.description), ("status", .str t.status)]

/-- Pydantic validation `Task(**v)` performed by `load_tasks`:
`id` and `title` are required (`int` / `str`), `description` defaults to
`""`, `status` defaults to `"todo"` and must be one of the three literals.
Extra keys are ignored (pydantic default), non-dict input raises.
`none` models the raised `ValidationError`/`TypeError`.  (Pydantic's lax
numeric-string coercions are out of model; no theorem relies on them.) -/
def Task.fromJson (j : Json) : Option Task :=
  match j with
  | .obj fields =>
    match lookupEntry fields "id" with
    | some (.num id) =>
      match lookupEntry fields "title" with
      | some (.str title) =>
        match
          match lookupEntry fields "description" with
          | none => some ""
          | some (.str d) => some d
          | some _ => none
        with
        | none => none
        | some d =>
          match
            match lookupEntry fields "status" with
            | none => some "todo"
            | some (.str st) => if isValidStatus st then some st else none
            | some _ => none
          with
          | none => none
          | some st => some ⟨id, title, d, st⟩
      | _ => none
    | _ => none
  | _ => none

/-- Errors that abort `load_tasks` (uncaught exceptions at startup). -/
inductive LoadError where
  | notADict : LoadError
  | tasksNotADict : LoadError
  | badKey (k : String) : LoadError
  | badTask (k : String) : LoadError
  | badNextId : LoadError
deriving Repr, DecidableEq

/-- The dict comprehension `{int(k): Task(**v) for k, v in
data.get('tasks', {}).items()}`: entries in order, first failure raises. -/
def parseTaskEntries : List (String × Json) → Except LoadError (List (Int × Task))
  | [] => .ok []
  | (k, v) :: rest =>
    match pyIntOfStr k with
    | none => .error (.badKey k)
    | some i =>
      match Task.fromJson v with
      | none => .error (.badTask k)
      | some t =>
        match parseTaskEntries rest with
        | .error e => .error e
        | .ok ts => .ok ((i, t) :: ts)

/-- `load_tasks` (server.py lines 32-38) on the parsed file content
(`none` = file absent, in which case the globals keep their initial
values).  `data.get('tasks', {})` and `data.get('next_id', 1)` default
the two keys when missing; a non-dict top level or non-dict `tasks`
value raises `AttributeError`, a bad entry raises out of the
comprehension.  One divergence is made explicit: Python stores whatever
object sits under `next_id` without validation (a non-integer only blows
up at the next `add_task`); the typed model rejects it at load time as
`badNextId`, and no theorem below claims anything about that case. -/
def load_tasks (file : Option Json) : Except LoadError Store :=
  match file with
  | none => .ok ⟨[], 1⟩
  | some content =>
    match content with
    | .obj entries =>
      match (lookupEntry entries "tasks").getD (.obj []) with
      | .obj taskEntries =>
        match parseTaskEntries taskEntries with
        | .error e => .error e
        | .ok ts =>
          match lookupEntry entries "next_id" with
          | none => .ok ⟨ts, 1⟩
          | some (.num n) => .ok ⟨ts, n⟩
          | some _ => .error .badNextId
      | _ => .error .tasksNotADict
    | _ => .error .notADict

/-- `save_tasks` (server.py lines 41-46): the JSON value written to the
backing file — `{'tasks': {str(k): v.model_dump() ...}, 'next_id': next_id}`. -/
def save_tasks (s : Store) : Json :=
  .obj [("tasks", .obj (s.tasks.map (fun kv => (pyStrOfInt kv.1, Task.toJson kv.2)))),
        ("next_id", .num s.next_id)]

/-- The `arguments : dict` of a tool invocation, typed per key.  A key
that the caller omits is `none`; `arguments[k]` on a `none` field raises
`KeyError`, `arguments.get(k, default)` takes the default.  (Arguments
bound to a value of the wrong runtime type are outside this typed model;
no claim quantifies over them.) -/
structure Args where
  title : Option String := none
  description : Option String := none
  status : Option String := none
  task_id : Option Int := none
  new_status : Option String := none
deriving Repr, DecidableEq

/-- Exceptions a tool handler can raise (uncaught inside `call_tool`;
the MCP framework above it turns them into generic error responses). -/
inductive PyExc where
  | keyError (k : String) : PyExc
  | validationError : PyExc
deriving Repr, DecidableEq

/-- The `status_names` display-label dict of the `move_task` branch
(server.py lines 229-233); `none` models its `KeyError`. -/
def status_names (s : String) : Option String :=
  if s = "todo" then some "📝 Todo"
  else if s = "in_progress" then some "🚀 In Progress"
  else if s = "done" then some "✅ Done"
  else none

/-- Confirmation text of `add_task` (server.py line 149). -/
def addText (t : Task) : String :=
  "✅ Task created successfully!\n\nID: " ++ toString t.id ++ "\nTitle: " ++ t.title
    ++ "\nStatus: " ++ t.status

/-- Failure text of `move_task`/`delete_task` on a missing id
(server.py lines 221 and 246). -/
def notFoundText (task_id : Int) : String :=
  "❌ Task #" ++ toString task_id ++ " not found"

/-- Confirmation text of `move_task` (server.py line 237). -/
def movedText (task_id : Int) (title oldName newName : String) : String :=
  "✅ Task #" ++ toString task_id ++ " moved!\n\n" ++ title ++ "\n"
    ++ oldName ++ " → " ++ newName

/-- Confirmation text of `delete_task` (server.py line 254). -/
def deletedText (t : Task) : String :=
  "🗑️ Task deleted!\n\nID: #" ++ toString t.id ++ "\nTitle: " ++ t.title

/-- Fallback text for an unknown tool name (server.py line 260). -/
def unknownText (name : String) : String := "❌ Unknown tool: " ++ name

/-- One rendered task line of the Kanban board, with the optional
italic description line (server.py lines 184-186 and twins). -/
def taskLine (t : Task) : String :=
  "- **#" ++ toString t.id ++ "** " ++ t.title ++ "\n"
    ++ (if t.description ≠ "" then "  _" ++ t.description ++ "_\n" else "")

/-- One board column: header, then the member task lines in order, or
the `_No tasks_` placeholder. -/
def renderGroup (header : String) (ts : List Task) : String :=
  header ++ (if ts.isEmpty then "_No tasks_\n" else String.join (ts.map taskLine))

/-- `tasks.values()` — the tasks in dict (insertion) order. -/
def taskValues (s : Store) : List Task := s.tasks.map Prod.snd

/-- The `filtered_tasks` local of the `list_tasks` branch
(server.py lines 162-165). -/
def filteredTasks (s : Store) (status_filter : String) : List Task :=
  if status_filter == "all" then taskValues s
  else (taskValues s).filter (fun t => t.status == status_filter)

/-- The Kanban-board text built from `filtered_tasks`
(server.py lines 173-211): the three status groups, each shown only when
the filter requests it, `Todo` and `In Progress` followed by a blank
line. -/
def boardText (status_filter : String) (filtered : List Task) : String :=
  "# 📋 Task Board\n\n"
    ++ (if status_filter == "all" || status_filter == "todo" then
          renderGroup "## 📝 Todo\n" (filtered.filter (fun t => t.status == "todo")) ++ "\n"
        else "")
    ++ (if status_filter == "all" || status_filter == "in_progress" then
          renderGroup "## 🚀 In Progress\n"
            (filtered.filter (fun t => t.status == "in_progress")) ++ "\n"
        else "")
    ++ (if status_filter == "all" || status_filter == "done" then
          renderGroup "## ✅ Done\n" (filtered.filter (fun t => t.status == "done"))
        else "")

/-- The `add_task` branch of `call_tool` (server.py lines 131-150).
`arguments["title"]` raises on a missing title; the pydantic `Task(...)`
constructor validates the status (raising before any mutation);
otherwise the task is stored under `next_id`, the counter increments,
and the snapshot is saved.  Disk state after any mutating branch is
`save_tasks` of the returned store. -/
def add_task (arguments : Args) (s : Store) :
    Except PyExc (List String) × Store :=
  match arguments.title with
  | none => (.error (.keyError "title"), s)
  | some title =>
    if isValidStatus (arguments.status.getD "todo") then
      (.ok [addText ⟨s.next_id, title, arguments.description.getD "",
          arguments.status.getD "todo"⟩],
       ⟨insertPy s.tasks s.next_id ⟨s.next_id, title, arguments.description.getD "",
          arguments.status.getD "todo"⟩, s.next_id + 1⟩)
    else (.error .validationError, s)

/-- The `list_tasks` branch of `call_tool` (server.py lines 152-212):
empty store and empty filter result get explanatory messages, otherwise
the rendered board. -/
def list_tasks (arguments : Args) (s : Store) :
    Except PyExc (List String) × Store :=
  if s.tasks.isEmpty then
    (.ok ["📋 No tasks found. Add your first task to get started!"], s)
  else
    if (filteredTasks s (arguments.status.getD "all")).isEmpty then
      (.ok ["📋 No tasks found with status '" ++ arguments.status.getD "all" ++ "'"], s)
    else (.ok [boardText (arguments.status.getD "all")
        (filteredTasks s (arguments.status.getD "all"))], s)

/-- The `move_task` branch of `call_tool` (server.py lines 214-238).
Both arguments are read first (`KeyError` order: `task_id`, then
`new_status`); a missing id returns the not-found text with the store
untouched; otherwise the status is assigned WITHOUT validation and the
snapshot saved, and only then does the confirmation text look both
statuses up in `status_names` — an invalid status raises `KeyError`
after the mutation has already happened. -/
def move_task (arguments : Args) (s : Store) :
    Except PyExc (List String) × Store :=
  match arguments.task_id with
  | none => (.error (.keyError "task_id"), s)
  | some task_id =>
    match arguments.new_status with
    | none => (.error (.keyError "new_status"), s)
    | some new_status =>
      match alookup s.tasks task_id with
      | none => (.ok [notFoundText task_id], s)
      | some task =>
        match status_names task.status with
        | none => (.error (.keyError task.status),
            ⟨insertPy s.tasks task_id { task with status := new_status }, s.next_id⟩)
        | some oldName =>
          match status_names new_status with
          | none => (.error (.keyError new_status),
              ⟨insertPy s.tasks task_id { task with status := new_status }, s.next_id⟩)
          | some newName =>
            (.ok [movedText task_id task.title oldName newName],
             ⟨insertPy s.tasks task_id { task with status := new_status }, s.next_id⟩)

/-- The `delete_task` branch of `call_tool` (server.py lines 240-255). -/
def delete_task (arguments : Args) (s : Store) :
    Except PyExc (List String) × Store :=
  match arguments.task_id with
  | none => (.error (.keyError "task_id"), s)
  | some task_id =>
    match alookup s.tasks task_id with
    | none => (.ok [notFoundText task_id], s)
    | some task => (.ok [deletedText task], ⟨removePy s.tasks task_id, s.next_id⟩)

/-- The `call_tool` dispatcher (server.py lines 127-261): the if/elif
chain on the tool name.  The returned store is the state of the globals
after the call, also when the branch raised. -/
def call_tool (name : String) (arguments : Args) (s : Store) :
    Except PyExc (List String) × Store :=
  if name = "add_task" then add_task arguments s
  else if name = "list_tasks" then list_tasks arguments s
  else if name = "move_task" then move_task arguments s
  else if name = "delete_task" then delete_task arguments s
  else (.ok [unknownText name], s)

/-- Abstract client operations for the sequence claims: each maps to one
`call_tool` invocation with all schema-required arguments supplied. -/
inductive Op where
  | add (title description status : String) : Op
  | move (task_id : Int) (new_status : String) : Op
  | del (task_id : Int) : Op

/-- The `(name, arguments)` pair a client sends for an `Op`. -/
def opArgs : Op → String × Args
  | .add t d st => ("add_task", { title := some t, description := some d, status := some st })
  | .move i st => ("move_task", { task_id := some i, new_status := some st })
  | .del i => ("delete_task", { task_id := some i })

/-- Run a sequence of operations through `call_tool`, collecting the ids
`add_task` actually assigned (an id is issued exactly when the call
advanced the counter). -/
def runOps : Store → List Op → Store × List Int
  | s, [] => (s, [])
  | s, op :: rest =>
    ((runOps (call_tool (opArgs op).1 (opArgs op).2 s).2 rest).1,
     (if s.next_id < (call_tool (opArgs op).1 (opArgs op).2 s).2.next_id
        then [s.next_id] else [])
       ++ (runOps (call_tool (opArgs op).1 (opArgs op).2 s).2 rest).2)

theorem optionBindSome {α β : Type} (a : α) (f : α → Option β) :
    (some a).bind f = f a := rfl

theorem optionMapSome {α β : Type} (a : α) (f : α → β) :
    (some a).map f = some (f a) := rfl

theorem digitVal?_digitChar (d : Nat) (hd : d < 10) :
    digitVal? (digitChar d) = some d := by
  interval_cases d <;> rfl

theorem digitChar_ne_dash (d : Nat) : digitChar d ≠ '-' := by
  unfold digitChar
  repeat' split
  all_goals decide

theorem parseNatAux_append (l₁ l₂ : List Char) (acc : Nat) :
    parseNatAux (l₁ ++ l₂) acc = (parseNatAux l₁ acc).bind (parseNatAux l₂) := by
  induction l₁ generalizing acc with
  | nil => rfl
  | cons c rest ih =>
    simp only [List.cons_append, parseNatAux]
    cases digitVal? c with
    | none => rfl
    | some d => exact ih _

theorem parseNatAux_natToDigitsAux (fuel : Nat) :
    ∀ n, n < fuel → ∀ acc, ∃ B,
      parseNatAux (natToDigitsAux fuel n) acc = some (acc * B + n) := by
  induction fuel with
  | zero => intro n hn; omega
  | succ fuel ih =>
    intro n hn acc
    by_cases h : n < 10
    · refine ⟨10, ?_⟩
      show parseNatAux (if n < 10 then [digitChar n]
        else natToDigitsAux fuel (n / 10) ++ [digitChar (n % 10)]) acc = _
      rw [if_pos h]
      simp only [parseNatAux, digitVal?_digitChar n h]
      congr 1
      omega
    · have hrec : n / 10 < fuel := by
        have := Nat.div_lt_self (show 0 < n by omega) (show 1 < 10 by omega)
        omega
      obtain ⟨B, hB⟩ := ih (n / 10) hrec acc
      refine ⟨B * 10, ?_⟩
      show parseNatAux (if n < 10 then [digitChar n]
        else natToDigitsAux fuel (n / 10) ++ [digitChar (n % 10)]) acc = _
      rw [if_neg h, parseNatAux_append, hB, optionBindSome]
      simp only [parseNatAux, digitVal?_digitChar (n % 10) (Nat.mod_lt n (by omega))]
      congr 1
      have hring : 10 * (acc * B + n / 10) + n % 10
          = acc * (B * 10) + (10 * (n / 10) + n % 10) := by ring
      rw [hring]
      congr 1
      omega

theorem parseNatAux_natToDigits_zero (n : Nat) :
    parseNatAux (natToDigits n) 0 = some n := by
  obtain ⟨B, hB⟩ := parseNatAux_natToDigitsAux (n + 1) n (by omega) 0
  rw [natToDigits, hB]
  simp

theorem natToDigits_ne_nil (n : Nat) : natToDigits n ≠ [] := by
  rw [natToDigits]
  show (if n < 10 then [digitChar n]
    else natToDigitsAux n (n / 10) ++ [digitChar (n % 10)]) ≠ []
  by_cases h : n < 10
  · simp [if_pos h]
  · simp [if_neg h]

theorem natToDigitsAux_mem_digit (fuel : Nat) :
    ∀ n, ∀ c ∈ natToDigitsAux fuel n, ∃ d, d < 10 ∧ c = digitChar d := by
  induction fuel with
  | zero => intro n c hc; exact absurd hc (by simp [natToDigitsAux])
  | succ fuel ih =>
    intro n c hc
    rw [show natToDigitsAux (fuel + 1) n = if n < 10 then [digitChar n]
      else natToDigitsAux fuel (n / 10) ++ [digitChar (n % 10)] from rfl] at hc
    by_cases h : n < 10
    · rw [if_pos h] at hc
      simp only [List.mem_singleton] at hc
      exact ⟨n, h, hc⟩
    · rw [if_neg h] at hc
      rcases List.mem_append.1 hc with h1 | h2
      · exact ih (n / 10) c h1
      · simp only [List.mem_singleton] at h2
        exact ⟨n % 10, Nat.mod_lt n (by omega), h2⟩

theorem natToDigits_mem_digit (n : Nat) :
    ∀ c ∈ natToDigits n, ∃ d, d < 10 ∧ c = digitChar d :=
  natToDigitsAux_mem_digit (n + 1) n

theorem pyIntOfStr_pyStrOfInt (i : Int) : pyIntOfStr (pyStrOfInt i) = some i := by
  by_cases hi : i < 0
  · have hdata : (pyStrOfInt i).data = '-' :: natToDigits i.natAbs := by
      unfold pyStrOfInt
      rw [if_pos hi]
    unfold pyIntOfStr
    rw [hdata]
    rw [if_neg (by simp), if_pos (by simp), List.tail_cons,
      if_neg (natToDigits_ne_nil _), parseNatAux_natToDigits_zero]
    show some (-(i.natAbs : Int)) = some i
    congr 1
    omega
  · have hdata : (pyStrOfInt i).data = natToDigits i.natAbs := by
      unfold pyStrOfInt
      rw [if_neg hi]
    obtain ⟨x, xs, hx⟩ := List.exists_cons_of_ne_nil (natToDigits_ne_nil i.natAbs)
    have hxd : x ≠ '-' := by
      obtain ⟨d, _, hd⟩ := natToDigits_mem_digit i.natAbs x
        (by rw [hx]; exact List.mem_cons_self x xs)
      rw [hd]
      exact digitChar_ne_dash d
    unfold pyIntOfStr
    rw [hdata, hx, if_neg (by simp), if_neg (by simpa using hxd), ← hx,
      parseNatAux_natToDigits_zero]
    show some ((i.natAbs : Int)) = some i
    congr 1
    omega

theorem mem_insertPy (l : List (Int × Task)) (k : Int) (t : Task) :
    ∀ kv ∈ insertPy l k t, kv = (k, t) ∨ kv ∈ l := by
  induction l with
  | nil =>
    intro kv hkv
    simp only [insertPy, List.mem_singleton] at hkv
    exact Or.inl hkv
  | cons hd rest ih =>
    obtain ⟨k', t'⟩ := hd
    intro kv hkv
    simp only [insertPy] at hkv
    split at hkv
    · rcases List.mem_cons.1 hkv with h | h
      · exact Or.inl h
      · exact Or.inr (List.mem_cons_of_mem _ h)
    · rcases List.mem_cons.1 hkv with h | h
      · exact Or.inr (h ▸ List.mem_cons_self _ rest)
      · rcases ih kv h with h' | h'
        · exact Or.inl h'
        · exact Or.inr (List.mem_cons_of_mem _ h')

theorem mem_removePy (l : List (Int × Task)) (k : Int) :
    ∀ kv ∈ removePy l k, kv ∈ l := by
  induction l with
  | nil => intro kv hkv; simp only [removePy] at hkv; exact absurd hkv (by simp)
  | cons hd rest ih =>
    obtain ⟨k', t'⟩ := hd
    intro kv hkv
    simp only [removePy] at hkv
    split at hkv
    · exact List.mem_cons_of_mem _ hkv
    · rcases List.mem_cons.1 hkv with h | h
      · exact h ▸ List.mem_cons_self _ rest
      · exact List.mem_cons_of_mem _ (ih kv h)

theorem alookup_mem (l : List (Int × Task)) (k : Int) (t : Task)
    (h : alookup l k = some t) : (k, t) ∈ l := by
  induction l with
  | nil => exact absurd h (by simp [alookup])
  | cons hd rest ih =>
    obtain ⟨k', t'⟩ := hd
    simp only [alookup] at h
    split at h
    · rename_i heq
      cases h
      subst heq
      exact List.mem_cons_self _ _
    · exact List.mem_cons_of_mem _ (ih h)

theorem insertPy_lookup_self (l : List (Int × Task)) (k : Int) (t : Task)
    (h : alookup l k = some t) : insertPy l k t = l := by
  induction l with
  | nil => exact absurd h (by simp [alookup])
  | cons hd rest ih =>
    obtain ⟨k', t'⟩ := hd
    simp only [alookup] at h
    simp only [insertPy]
    split at h
    · rename_i heq
      cases h
      rw [if_pos heq, heq]
    · rename_i hne
      rw [if_neg hne, ih h]

theorem Task.fromJson_toJson (t : Task) (h : isValidStatus t.status = true) :
    Task.fromJson (Task.toJson t) = some t := by
  unfold Task.toJson Task.fromJson
  simp [lookupEntry, h]

theorem parseTaskEntries_map (l : List (Int × Task))
    (h : ∀ kv ∈ l, isValidStatus kv.2.status = true) :
    parseTaskEntries (l.map (fun kv => (pyStrOfInt kv.1, Task.toJson kv.2))) = .ok l := by
  induction l with
  | nil => rfl
  | cons kv rest ih =>
    obtain ⟨k, t⟩ := kv
    simp only [List.map_cons, parseTaskEntries, pyIntOfStr_pyStrOfInt,
      Task.fromJson_toJson t (h (k, t) (List.mem_cons_self _ _))]
    rw [ih (fun kv hkv => h kv (List.mem_cons_of_mem _ hkv))]

/-- Claim C1: round trip — for every store state whose tasks all carry a
valid status and any counter value, `save_tasks` followed by
`load_tasks` into a fresh store reproduces the task collection exactly
(same ids, titles, descriptions, statuses, in the same order) and the
same `next_id` counter. -/
theorem save_load_roundtrip (s : Store)
    (h : ∀ kv ∈ s.tasks, isValidStatus kv.2.status = true) :
    load_tasks (some (save_tasks s)) = .ok s := by
  unfold save_tasks load_tasks
  simp [lookupEntry, parseTaskEntries_map s.tasks h]

/-- Witness for C1 at a concrete two-task store. -/
theorem save_load_roundtrip_witness :
    load_tasks (some (save_tasks ⟨[(1, ⟨1, "Write report", "", "todo"⟩),
      (2, ⟨2, "Fix bug", "urgent", "done"⟩)], 3⟩)) = .ok ⟨[(1, ⟨1, "Write report", "", "todo"⟩),
      (2, ⟨2, "Fix bug", "urgent", "done"⟩)], 3⟩ :=
  save_load_roundtrip ⟨[(1, ⟨1, "Write report", "", "todo"⟩),
    (2, ⟨2, "Fix bug", "urgent", "done"⟩)], 3⟩ (by decide)

/-- Claim C3: filter completeness — for every store and every filter in
`{todo, in_progress, done}`, the `filtered_tasks` the `list_tasks`
branch returns contains exactly the tasks whose status equals the
filter, as an order-preserving sublist of the dict (creation) order;
the `all` filter returns every task in that order. -/
theorem list_filter_complete (s : Store) (f : String)
    (hf : f = "todo" ∨ f = "in_progress" ∨ f = "done") :
    (∀ t, t ∈ filteredTasks s f ↔ t ∈ taskValues s ∧ t.status = f)
    ∧ List.Sublist (filteredTasks s f) (taskValues s)
    ∧ filteredTasks s "all" = taskValues s
    ∧ (s.tasks.isEmpty = false → (filteredTasks s f).isEmpty = false →
        call_tool "list_tasks" { status := some f } s
          = (.ok [boardText f (filteredTasks s f)], s)) := by
  have hne : (f == "all") = false := by
    rcases hf with rfl | rfl | rfl <;> rfl
  refine ⟨?_, ?_, ?_, ?_⟩
  · unfold filteredTasks
    rw [hne]
    simp only [Bool.false_eq_true, if_false]
    intro t
    simp [List.mem_filter]
  · unfold filteredTasks
    rw [hne]
    simp only [Bool.false_eq_true, if_false]
    exact List.filter_sublist _
  · unfold filteredTasks
    rfl
  · intro hemp hfil
    show list_tasks { status := some f } s = _
    unfold list_tasks
    rw [show ({ status := some f } : Args).status.getD "all" = f from rfl, hemp, hfil]
    simp

/-- Witness for C3 at a two-task store and the `done` filter. -/
theorem list_filter_complete_witness :
    (∀ t, t ∈ filteredTasks ⟨[(1, ⟨1, "A", "", "todo"⟩), (2, ⟨2, "B", "", "done"⟩)], 3⟩ "done"
        ↔ t ∈ taskValues ⟨[(1, ⟨1, "A", "", "todo"⟩), (2, ⟨2, "B", "", "done"⟩)], 3⟩
            ∧ t.status = "done")
    ∧ List.Sublist
        (filteredTasks ⟨[(1, ⟨1, "A", "", "todo"⟩), (2, ⟨2, "B", "", "done"⟩)], 3⟩ "done")
        (taskValues ⟨[(1, ⟨1, "A", "", "todo"⟩), (2, ⟨2, "B", "", "done"⟩)], 3⟩)
    ∧ filteredTasks ⟨[(1, ⟨1, "A", "", "todo"⟩), (2, ⟨2, "B", "", "done"⟩)], 3⟩ "all"
        = taskValues ⟨[(1, ⟨1, "A", "", "todo"⟩), (2, ⟨2, "B", "", "done"⟩)], 3⟩
    ∧ ((⟨[(1, ⟨1, "A", "", "todo"⟩), (2, ⟨2, "B", "", "done"⟩)], 3⟩ : Store).tasks.isEmpty
          = false →
        (filteredTasks ⟨[(1, ⟨1, "A", "", "todo"⟩), (2, ⟨2, "B", "", "done"⟩)], 3⟩
            "done").isEmpty = false →
        call_tool "list_tasks" { status := some "done" }
            ⟨[(1, ⟨1, "A", "", "todo"⟩), (2, ⟨2, "B", "", "done"⟩)], 3⟩
          = (.ok [boardText "done"
              (filteredTasks ⟨[(1, ⟨1, "A", "", "todo"⟩), (2, ⟨2, "B", "", "done"⟩)], 3⟩
                "done")],
             ⟨[(1, ⟨1, "A", "", "todo"⟩), (2, ⟨2, "B", "", "done"⟩)], 3⟩)) :=
  list_filter_complete ⟨[(1, ⟨1, "A", "", "todo"⟩), (2, ⟨2, "B", "", "done"⟩)], 3⟩
    "done" (by decide)

/-- Claim C4: NotFound atomicity — for every store and every id absent
from the task dict, `move_task` and `delete_task` return the not-found
failure text naming the id, and the store (tasks and counter) is
unchanged. -/
theorem notfound_leaves_store (s : Store) (task_id : Int) (ns : String)
    (h : alookup s.tasks task_id = none) :
    call_tool "move_task" { task_id := some task_id, new_status := some ns } s
        = (.ok [notFoundText task_id], s)
    ∧ call_tool "delete_task" { task_id := some task_id } s
        = (.ok [notFoundText task_id], s) := by
  constructor
  · show move_task { task_id := some task_id, new_status := some ns } s = _
    unfold move_task
    simp only [h]
  · show delete_task { task_id := some task_id } s = _
    unfold delete_task
    simp only [h]

/-- Witness for C4: id 99 on a one-task store. -/
theorem notfound_leaves_store_witness :
    call_tool "move_task" { task_id := some 99, new_status := some "done" }
        ⟨[(1, ⟨1, "A", "", "todo"⟩)], 2⟩
      = (.ok [notFoundText 99], ⟨[(1, ⟨1, "A", "", "todo"⟩)], 2⟩)
    ∧ call_tool "delete_task" { task_id := some 99 } ⟨[(1, ⟨1, "A", "", "todo"⟩)], 2⟩
      = (.ok [notFoundText 99], ⟨[(1, ⟨1, "A", "", "todo"⟩)], 2⟩) :=
  notfound_leaves_store ⟨[(1, ⟨1, "A", "", "todo"⟩)], 2⟩ 99 "done" (by decide)

/-- Claim C9: no-op move idempotence — moving a present task (with a
valid current status, the standing data-model invariant) to its current
status succeeds, reports the same display label as old and new status,
and returns the store completely unchanged. -/
theorem noop_move_identity (s : Store) (task_id : Int) (t : Task)
    (h : alookup s.tasks task_id = some t) (hv : isValidStatus t.status = true) :
    ∃ label, status_names t.status = some label
      ∧ call_tool "move_task" { task_id := some task_id, new_status := some t.status } s
          = (.ok [movedText task_id t.title label label], s) := by
  have hins : insertPy s.tasks task_id t = s.tasks := insertPy_lookup_self s.tasks task_id t h
  have hst : t.status = "todo" ∨ t.status = "in_progress" ∨ t.status = "done" := by
    unfold isValidStatus at hv
    rcases Bool.or_eq_true_iff.1 hv with h' | h'
    · rcases Bool.or_eq_true_iff.1 h' with h'' | h''
      · exact Or.inl (by simpa using h'')
      · exact Or.inr (Or.inl (by simpa using h''))
    · exact Or.inr (Or.inr (by simpa using h'))
  have hmain : ∀ label, status_names t.status = some label →
      call_tool "move_task" { task_id := some task_id, new_status := some t.status } s
        = (.ok [movedText task_id t.title label label], s) := by
    intro label hlabel
    show move_task { task_id := some task_id, new_status := some t.status } s = _
    unfold move_task
    simp only [h, hlabel]
    rw [show ({ t with status := t.status } : Task) = t from rfl, hins]
  rcases hst with h' | h' | h'
  · exact ⟨"📝 Todo", by rw [h']; rfl, hmain _ (by rw [h']; rfl)⟩
  · exact ⟨"🚀 In Progress", by rw [h']; rfl, hmain _ (by rw [h']; rfl)⟩
  · exact ⟨"✅ Done", by rw [h']; rfl, hmain _ (by rw [h']; rfl)⟩

/-- Witness for C9: moving task 1 from `todo` to `todo`. -/
theorem noop_move_identity_witness :
    ∃ label, status_names "todo" = some label
      ∧ call_tool "move_task" { task_id := some 1, new_status := some "todo" }
            ⟨[(1, ⟨1, "A", "", "todo"⟩)], 2⟩
          = (.ok [movedText 1 "A" label label], ⟨[(1, ⟨1, "A", "", "todo"⟩)], 2⟩) :=
  noop_move_identity ⟨[(1, ⟨1, "A", "", "todo"⟩)], 2⟩ 1 ⟨1, "A", "", "todo"⟩
    (by decide) (by decide)

/-- Claim C6 counterexample: `add_task` with the empty string as title
does NOT fail — it succeeds and creates a task with empty title (there
is no title validation in the handler, pydantic's `title: str` has no
non-empty constraint). -/
theorem add_empty_title_accepted :
    call_tool "add_task" { title := some "" } store0
      = (.ok [addText ⟨1, "", "", "todo"⟩], ⟨[(1, ⟨1, "", "", "todo"⟩)], 2⟩) := rfl

/-- Claim C6 amended: `add_task` never validates the title — for EVERY
title string, the empty string included, a task with exactly that title
is created under the current counter and the counter increments. -/
theorem add_any_title_creates (s : Store) (title : String) :
    call_tool "add_task" { title := some title } s
      = (.ok [addText ⟨s.next_id, title, "", "todo"⟩],
         ⟨insertPy s.tasks s.next_id ⟨s.next_id, title, "", "todo"⟩, s.next_id + 1⟩) := rfl

/-- Claim C7 counterexample: `call_tool "add_task"` with an argument map
missing `title` raises `KeyError` out of the dispatcher instead of
returning a formatted failure result (the MCP framework above the
dispatcher is what converts the exception into an error response). -/
theorem dispatch_missing_title_raises :
    call_tool "add_task" {} store0 = (.error (.keyError "title"), store0) := rfl

/-- Claim C7 amended: the dispatcher returns a formatted failure result
for every unknown operation name, but it does NOT validate arguments:
a map missing a required argument (`add_task` without `title`,
`move_task` without `task_id` or `new_status`, `delete_task` without
`task_id`) raises `KeyError`, and `add_task` with a status outside the
enumeration raises a pydantic `ValidationError`; those exceptions
escape the dispatcher and only the surrounding framework keeps the
process alive. -/
theorem dispatcher_not_total (name : String) (a : Args) (s : Store)
    (h1 : name ≠ "add_task") (h2 : name ≠ "list_tasks")
    (h3 : name ≠ "move_task") (h4 : name ≠ "delete_task") :
    call_tool name a s = (.ok [unknownText name], s)
    ∧ (∀ (b : Args) (s' : Store), b.title = none →
        call_tool "add_task" b s' = (.error (.keyError "title"), s'))
    ∧ (∀ (b : Args) (s' : Store) (ttl st : String), b.title = some ttl →
        b.status = some st → isValidStatus st = false →
        call_tool "add_task" b s' = (.error .validationError, s'))
    ∧ (∀ (b : Args) (s' : Store), b.task_id = none →
        call_tool "move_task" b s' = (.error (.keyError "task_id"), s'))
    ∧ (∀ (b : Args) (s' : Store) (i : Int), b.task_id = some i → b.new_status = none →
        call_tool "move_task" b s' = (.error (.keyError "new_status"), s'))
    ∧ (∀ (b : Args) (s' : Store), b.task_id = none →
        call_tool "delete_task" b s' = (.error (.keyError "task_id"), s')) := by
  refine ⟨?_, ?_, ?_, ?_, ?_, ?_⟩
  · unfold call_tool
    rw [if_neg h1, if_neg h2, if_neg h3, if_neg h4]
  · intro b s' hb
    show add_task b s' = _
    unfold add_task
    rw [hb]
  · intro b s' ttl st hb hst hval
    show add_task b s' = _
    unfold add_task
    rw [hb, hst]
    simp only [Option.getD_some, hval, Bool.false_eq_true, if_false]
  · intro b s' hb
    show move_task b s' = _
    unfold move_task
    rw [hb]
  · intro b s' i hb hns
    show move_task b s' = _
    unfold move_task
    rw [hb, hns]
  · intro b s' hb
    show delete_task b s' = _
    unfold delete_task
    rw [hb]

/-- Witness for C7's amended statement at the name `foo_tool`. -/
theorem dispatcher_not_total_witness :
    call_tool "foo_tool" {} store0 = (.ok [unknownText "foo_tool"], store0) :=
  (dispatcher_not_total "foo_tool" {} store0 (by decide) (by decide)
    (by decide) (by decide)).1

/-- Claim C8 counterexample: the content `{}` is a JSON object that does
not conform to the documented snapshot format (both required keys are
missing), yet `load_tasks` does NOT fail on it — it silently defaults
to an empty store with counter 1. -/
theorem load_accepts_empty_object :
    load_tasks (some (Json.obj [])) = .ok ⟨[], 1⟩ := rfl

/-- Claim C8 amended: an absent file leaves the store empty with counter
1, and content that is not a JSON object, whose `tasks` value is not an
object, or containing a task entry with a non-integer key or a value
that fails `Task` validation IS a fatal load error (no entry is ever
silently dropped); but a JSON object merely missing the `tasks` /
`next_id` keys is nonconforming yet loads successfully with the
defaults (empty task dict, counter 1). -/
theorem load_tasks_obj (es : List (String × Json)) :
    load_tasks (some (.obj es))
      = (match (lookupEntry es "tasks").getD (.obj []) with
         | Json.obj taskEntries =>
           match parseTaskEntries taskEntries with
           | .error e => .error e
           | .ok ts =>
             match lookupEntry es "next_id" with
             | none => .ok ⟨ts, 1⟩
             | some (.num n) => .ok ⟨ts, n⟩
             | some _ => .error .badNextId
         | _ => .error .tasksNotADict) := rfl

theorem load_fatal_cases (j : Json) (hj : ∀ entries, j ≠ Json.obj entries) :
    load_tasks none = .ok ⟨[], 1⟩
    ∧ load_tasks (some j) = .error .notADict
    ∧ (∀ (entries : List (String × Json)) (ts : Json),
        lookupEntry entries "tasks" = some ts → (∀ tes, ts ≠ Json.obj tes) →
        load_tasks (some (.obj entries)) = .error .tasksNotADict)
    ∧ (∀ (entries tes : List (String × Json)) (e : LoadError),
        lookupEntry entries "tasks" = some (Json.obj tes) →
        parseTaskEntries tes = .error e →
        load_tasks (some (.obj entries)) = .error e)
    ∧ (∀ (k : String) (v : Json) (rest : List (String × Json)),
        pyIntOfStr k = none → parseTaskEntries ((k, v) :: rest) = .error (.badKey k))
    ∧ (∀ (k : String) (v : Json) (rest : List (String × Json)) (i : Int),
        pyIntOfStr k = some i → Task.fromJson v = none →
        parseTaskEntries ((k, v) :: rest) = .error (.badTask k))
    ∧ (∀ entries : List (String × Json), lookupEntry entries "tasks" = none →
        lookupEntry entries "next_id" = none →
        load_tasks (some (.obj entries)) = .ok ⟨[], 1⟩) := by
  refine ⟨rfl, ?_, ?_, ?_, ?_, ?_, ?_⟩
  · cases j with
    | obj entries => exact absurd rfl (hj entries)
    | null => rfl
    | bool b => rfl
    | num n => rfl
    | str s => rfl
    | arr elems => rfl
  · intro entries ts hlk hts
    cases ts with
    | obj tes => exact absurd rfl (hts tes)
    | null => rw [load_tasks_obj, hlk]; rfl
    | bool b => rw [load_tasks_obj, hlk]; rfl
    | num n => rw [load_tasks_obj, hlk]; rfl
    | str s => rw [load_tasks_obj, hlk]; rfl
    | arr elems => rw [load_tasks_obj, hlk]; rfl
  · intro entries tes e hlk hparse
    rw [load_tasks_obj, hlk]
    simp only [Option.getD_some, hparse]
  · intro k v rest hk
    unfold parseTaskEntries
    rw [hk]
  · intro k v rest i hk hv
    unfold parseTaskEntries
    rw [hk, hv]
  · intro entries hlk hnid
    rw [load_tasks_obj, hlk, hnid]
    rfl

/-- Witness for C8's amended statement at the non-object content `3`. -/
theorem load_fatal_cases_witness :
    load_tasks (some (Json.num 3)) = .error .notADict :=
  (load_fatal_cases (Json.num 3) (fun _ h => nomatch h)).2.1

/-- Claim C5 (a code bug): `move_task` assigns the caller-supplied
`new_status` to the task WITHOUT validation (pydantic does not
re-validate on assignment), so a status outside the three declared
values — contradicting the code's own `TaskStatus` literal type — is
stored and persisted; the handler then raises `KeyError` while
formatting the confirmation, and the snapshot just written can no
longer be loaded (pydantic rejects it at the next startup). -/
theorem move_invalid_status_corrupts :
    call_tool "move_task" { task_id := some 1, new_status := some "blocked" }
        ⟨[(1, ⟨1, "Write report", "", "todo"⟩)], 2⟩
      = (.error (.keyError "blocked"), ⟨[(1, ⟨1, "Write report", "", "blocked"⟩)], 2⟩)
    ∧ isValidStatus "blocked" = false
    ∧ load_tasks (some (save_tasks ⟨[(1, ⟨1, "Write report", "", "blocked"⟩)], 2⟩))
        = .error (.badTask "1") :=
  ⟨rfl, rfl, rfl⟩

theorem add_task_next_id (a : Args) (s : Store) :
    (add_task a s).2.next_id = s.next_id ∨ (add_task a s).2.next_id = s.next_id + 1 := by
  unfold add_task
  repeat' split
  all_goals first
    | exact Or.inl rfl
    | exact Or.inr rfl

theorem add_task_keys (a : Args) (s : Store)
    (h : ∀ kv ∈ s.tasks, kv.1 < s.next_id) :
    ∀ kv ∈ (add_task a s).2.tasks, kv.1 < (add_task a s).2.next_id := by
  unfold add_task
  repeat' split
  all_goals try exact h
  intro kv hkv
  rcases mem_insertPy s.tasks s.next_id _ kv hkv with h' | h'
  · rw [h']
    show s.next_id < s.next_id + 1
    omega
  · have := h kv h'
    show kv.1 < s.next_id + 1
    omega

theorem list_tasks_store (a : Args) (s : Store) : (list_tasks a s).2 = s := by
  unfold list_tasks
  repeat' split
  all_goals rfl

theorem move_task_next_id (a : Args) (s : Store) :
    (move_task a s).2.next_id = s.next_id := by
  unfold move_task
  repeat' split
  all_goals rfl

theorem move_task_keys (a : Args) (s : Store)
    (h : ∀ kv ∈ s.tasks, kv.1 < s.next_id) :
    ∀ kv ∈ (move_task a s).2.tasks, kv.1 < (move_task a s).2.next_id := by
  have hins : ∀ (task_id : Int) (task : Task) (new_status : String),
      alookup s.tasks task_id = some task →
      ∀ kv ∈ insertPy s.tasks task_id { task with status := new_status },
        kv.1 < s.next_id := by
    intro task_id task new_status hl kv hkv
    rcases mem_insertPy s.tasks task_id _ kv hkv with h' | h'
    · rw [h']
      show task_id < s.next_id
      exact h (task_id, task) (alookup_mem s.tasks task_id task hl)
    · exact h kv h'
  unfold move_task
  split
  · exact h
  · split
    · exact h
    · split
      · exact h
      · rename_i task hl
        split
        · exact hins _ _ _ hl
        · split
          · exact hins _ _ _ hl
          · exact hins _ _ _ hl

theorem delete_task_next_id (a : Args) (s : Store) :
    (delete_task a s).2.next_id = s.next_id := by
  unfold delete_task
  repeat' split
  all_goals rfl

theorem delete_task_keys (a : Args) (s : Store)
    (h : ∀ kv ∈ s.tasks, kv.1 < s.next_id) :
    ∀ kv ∈ (delete_task a s).2.tasks, kv.1 < (delete_task a s).2.next_id := by
  unfold delete_task
  repeat' split
  all_goals try exact h
  intro kv hkv
  exact h kv (mem_removePy s.tasks _ kv hkv)

theorem call_tool_next_id_step (name : String) (a : Args) (s : Store) :
    (call_tool name a s).2.next_id = s.next_id
      ∨ (call_tool name a s).2.next_id = s.next_id + 1 := by
  unfold call_tool
  by_cases h1 : name = "add_task"
  · rw [if_pos h1]
    exact add_task_next_id a s
  rw [if_neg h1]
  by_cases h2 : name = "list_tasks"
  · rw [if_pos h2, list_tasks_store]
    exact Or.inl rfl
  rw [if_neg h2]
  by_cases h3 : name = "move_task"
  · rw [if_pos h3]
    exact Or.inl (move_task_next_id a s)
  rw [if_neg h3]
  by_cases h4 : name = "delete_task"
  · rw [if_pos h4]
    exact Or.inl (delete_task_next_id a s)
  rw [if_neg h4]
  exact Or.inl rfl

theorem call_tool_keys (name : String) (a : Args) (s : Store)
    (h : ∀ kv ∈ s.tasks, kv.1 < s.next_id) :
    ∀ kv ∈ (call_tool name a s).2.tasks, kv.1 < (call_tool name a s).2.next_id := by
  unfold call_tool
  by_cases h1 : name = "add_task"
  · rw [if_pos h1]
    exact add_task_keys a s h
  rw [if_neg h1]
  by_cases h2 : name = "list_tasks"
  · rw [if_pos h2, list_tasks_store]
    exact h
  rw [if_neg h2]
  by_cases h3 : name = "move_task"
  · rw [if_pos h3]
    exact move_task_keys a s h
  rw [if_neg h3]
  by_cases h4 : name = "delete_task"
  · rw [if_pos h4]
    exact delete_task_keys a s h
  rw [if_neg h4]
  exact h

theorem runOps_bounds (ops : List Op) : ∀ s : Store,
    s.next_id ≤ (runOps s ops).1.next_id
    ∧ (∀ i ∈ (runOps s ops).2, s.next_id ≤ i ∧ i < (runOps s ops).1.next_id)
    ∧ List.Pairwise (· < ·) (runOps s ops).2 := by
  induction ops with
  | nil =>
    intro s
    refine ⟨le_refl _, ?_, List.Pairwise.nil⟩
    intro i hi
    simp [runOps] at hi
  | cons op rest ih =>
    intro s
    obtain ⟨ihmono, ihbound, ihpair⟩ := ih (call_tool (opArgs op).1 (opArgs op).2 s).2
    have hstep := call_tool_next_id_step (opArgs op).1 (opArgs op).2 s
    have hle : s.next_id ≤ (call_tool (opArgs op).1 (opArgs op).2 s).2.next_id := by
      rcases hstep with h | h <;> omega
    have h1 : (runOps s (op :: rest)).1
        = (runOps (call_tool (opArgs op).1 (opArgs op).2 s).2 rest).1 := rfl
    have h2 : (runOps s (op :: rest)).2
        = (if s.next_id < (call_tool (opArgs op).1 (opArgs op).2 s).2.next_id
            then [s.next_id] else [])
          ++ (runOps (call_tool (opArgs op).1 (opArgs op).2 s).2 rest).2 := rfl
    refine ⟨?_, ?_, ?_⟩
    · rw [h1]
      omega
    · rw [h1, h2]
      intro i hi
      rcases List.mem_append.1 hi with hin | hin
      · by_cases hif : s.next_id < (call_tool (opArgs op).1 (opArgs op).2 s).2.next_id
        · rw [if_pos hif] at hin
          simp only [List.mem_singleton] at hin
          subst hin
          constructor
          · exact le_refl _
          · omega
        · rw [if_neg hif] at hin
          exact absurd hin (by simp)
      · obtain ⟨hb1, hb2⟩ := ihbound i hin
        exact ⟨le_trans hle hb1, hb2⟩
    · rw [h2]
      rw [List.pairwise_append]
      refine ⟨?_, ihpair, ?_⟩
      · by_cases hif : s.next_id < (call_tool (opArgs op).1 (opArgs op).2 s).2.next_id
        · rw [if_pos hif]
          exact List.pairwise_singleton _ _
        · rw [if_neg hif]
          exact List.Pairwise.nil
      · intro x hx y hy
        by_cases hif : s.next_id < (call_tool (opArgs op).1 (opArgs op).2 s).2.next_id
        · rw [if_pos hif] at hx
          simp only [List.mem_singleton] at hx
          subst hx
          have := (ihbound y hy).1
          omega
        · rw [if_neg hif] at hx
          exact absurd hx (by simp)

theorem runOps_append (pre post : List Op) : ∀ s : Store,
    runOps s (pre ++ post)
      = ((runOps (runOps s pre).1 post).1,
         (runOps s pre).2 ++ (runOps (runOps s pre).1 post).2) := by
  induction pre with
  | nil =>
    intro s
    show runOps s post = ((runOps s post).1, [] ++ (runOps s post).2)
    rw [List.nil_append]
  | cons op rest ih =>
    intro s
    simp only [List.cons_append, runOps]
    rw [show runOps (call_tool (opArgs op).1 (opArgs op).2 s).2 (rest.append post)
        = runOps (call_tool (opArgs op).1 (opArgs op).2 s).2 (rest ++ post) from rfl,
      ih (call_tool (opArgs op).1 (opArgs op).2 s).2]
    simp [List.append_assoc]

theorem runOps_keys (ops : List Op) : ∀ s : Store,
    (∀ kv ∈ s.tasks, kv.1 < s.next_id) →
    ∀ kv ∈ (runOps s ops).1.tasks, kv.1 < (runOps s ops).1.next_id := by
  induction ops with
  | nil => intro s h; exact h
  | cons op rest ih =>
    intro s h
    exact ih (call_tool (opArgs op).1 (opArgs op).2 s).2
      (call_tool_keys (opArgs op).1 (opArgs op).2 s h)

/-- Claim C2: identifier uniqueness and monotonicity — over any
sequence of add/move/delete operations run from the empty store with
counter 1, the ids `add_task` assigns are strictly increasing in
creation order (hence pairwise distinct), the counter never decreases
across any prefix, and every id present in the store at any
intermediate point (in particular any id a delete removes there) is
strictly below every id assigned later — deleted ids are never
reused. -/
theorem ids_strictly_increasing_never_reused (ops pre post : List Op)
    (h : ops = pre ++ post) :
    List.Pairwise (· < ·) (runOps store0 ops).2
    ∧ (runOps store0 pre).1.next_id ≤ (runOps store0 ops).1.next_id
    ∧ (∀ kv ∈ (runOps store0 pre).1.tasks,
        ∀ i ∈ (runOps (runOps store0 pre).1 post).2, kv.1 < i) := by
  subst h
  refine ⟨(runOps_bounds (pre ++ post) store0).2.2, ?_, ?_⟩
  · rw [runOps_append]
    exact (runOps_bounds post (runOps store0 pre).1).1
  · intro kv hkv i hi
    have hkeys := runOps_keys pre store0 (by intro kv hkv; exact absurd hkv (by simp [store0]))
      kv hkv
    have hbound := ((runOps_bounds post (runOps store0 pre).1).2.1 i hi).1
    omega

/-- Witness for C2 on the scenario add, add, delete 1, add. -/
theorem ids_strictly_increasing_never_reused_witness :
    List.Pairwise (· < ·)
      (runOps store0 [Op.add "Write report" "" "todo", Op.add "Fix bug" "" "in_progress",
        Op.del 1, Op.add "Ship" "" "todo"]).2
    ∧ (runOps store0 [Op.add "Write report" "" "todo", Op.add "Fix bug" "" "in_progress"]).1.next_id
        ≤ (runOps store0 [Op.add "Write report" "" "todo", Op.add "Fix bug" "" "in_progress",
            Op.del 1, Op.add "Ship" "" "todo"]).1.next_id
    ∧ (∀ kv ∈ (runOps store0 [Op.add "Write report" "" "todo",
          Op.add "Fix bug" "" "in_progress"]).1.tasks,
        ∀ i ∈ (runOps (runOps store0 [Op.add "Write report" "" "todo",
            Op.add "Fix bug" "" "in_progress"]).1 [Op.del 1, Op.add "Ship" "" "todo"]).2,
          kv.1 < i) :=
  ids_strictly_increasing_never_reused
    [Op.add "Write report" "" "todo", Op.add "Fix bug" "" "in_progress",
      Op.del 1, Op.add "Ship" "" "todo"]
    [Op.add "Write report" "" "todo", Op.add "Fix bug" "" "in_progress"]
    [Op.del 1, Op.add "Ship" "" "todo"] rfl

/-- Claim C10: `load_tasks` does not re-establish the counter invariant.
The conforming snapshot `{"tasks": {"1": {...}}, "next_id": 1}` (whose
`next_id` is not above the stored id) loads successfully, and the next
`add_task` assigns id 1 again, silently REPLACING the loaded task. -/
theorem load_skips_counter_invariant :
    load_tasks (some (Json.obj [("tasks", Json.obj [("1",
        Json.obj [("id", Json.num 1), ("title", Json.str "old"),
          ("description", Json.str ""), ("status", Json.str "todo")])]),
        ("next_id", Json.num 1)]))
      = .ok ⟨[(1, ⟨1, "old", "", "todo"⟩)], 1⟩
    ∧ call_tool "add_task" { title := some "new" } ⟨[(1, ⟨1, "old", "", "todo"⟩)], 1⟩
      = (.ok [addText ⟨1, "new", "", "todo"⟩], ⟨[(1, ⟨1, "new", "", "todo"⟩)], 2⟩) :=
  ⟨rfl, rfl⟩

end TaskServer
